import Mathlib

/-
Verification development for the Bastian SEO content-generation console
(src/app.py). The pipeline pieces referenced by the specification are
shallowly embedded here: Python string operations are modelled as
structural recursions over lists of characters, the per-field prompt
formatting is the nine-step replace chain from the generation loop, the
link auditor is the URL-extraction plus substring-filter plus pipe-join
logic, generate_content is modelled as a deterministic function of a
stream of backend outcomes (with instrumentation recording vendor calls,
backoff sleeps and whether the post-loop return was reached), and the
batch orchestrator builds one association-list output record per topic
row. Configuration save and load are modelled over a tagged value type
standing for the JSON document.
-/

namespace Bastian

/- Python string primitives, modelled over the character list of a
string so that every definition is a structural recursion the kernel
can evaluate. -/

/-- Boolean test that the first list is an initial segment of the second,
comparing characters with BEq. -/
def startsWith : List Char → List Char → Bool
  | [], _ => true
  | _ :: _, [] => false
  | p :: ps, c :: cs => p == c && startsWith ps cs

/-- Boolean substring test on character lists; models the Python
operator in for strings (the empty pattern occurs in every string). -/
def hasSubstr (pat : List Char) : List Char → Bool
  | [] => pat.isEmpty
  | c :: rest => startsWith pat (c :: rest) || hasSubstr pat rest

/-- Python "pat in s" substring test for strings. -/
def strIn (pat s : String) : Bool := hasSubstr pat.data s.data

/-- One left-to-right pass of non-overlapping pattern replacement, the
semantics of Python str.replace for a non-empty pattern. The fuel
argument is an upper bound on the input length; each step consumes at
least one character, so fuel equal to the input length is enough. -/
def replaceAux (pat rep : List Char) : Nat → List Char → List Char
  | _, [] => []
  | 0, s => s
  | fuel + 1, c :: rest =>
    if startsWith pat (c :: rest) then
      rep ++ replaceAux pat rep fuel (List.drop (pat.length - 1) rest)
    else
      c :: replaceAux pat rep fuel rest

/-- Python s.replace(pat, rep). Every pattern used by the source is a
non-empty fixed placeholder literal; the empty-pattern guard keeps the
definition total without being exercised. -/
def pyReplace (s pat rep : String) : String :=
  if pat.data.isEmpty then s
  else ⟨replaceAux pat.data rep.data s.data.length s.data⟩

/-- Drop leading whitespace characters from a character list. -/
def dropLeadingWs : List Char → List Char
  | [] => []
  | c :: rest => if c.isWhitespace then dropLeadingWs rest else c :: rest

/-- Python s.strip(): remove leading and trailing whitespace. -/
def pyStrip (s : String) : String :=
  ⟨((dropLeadingWs ((dropLeadingWs s.data).reverse)).reverse)⟩

/-- Split a character list at newline characters, keeping empty pieces;
models splitting the raw link-list text into lines. Blank pieces are
filtered out by the extraction guard, so the difference between this
and Python splitlines (universal newlines, no trailing empty piece)
is not observable through the link auditor. -/
def splitLinesAux : List Char → List Char → List (List Char)
  | [], acc => [acc.reverse]
  | c :: rest, acc =>
    if c == '\n' then acc.reverse :: splitLinesAux rest []
    else splitLinesAux rest (c :: acc)

/-- Line-splitting at the string level. -/
def splitLines (s : String) : List String :=
  (splitLinesAux s.data []).map (fun l => ⟨l⟩)

/-- Characters of the line before the first colon; for a line containing
a colon this is exactly Python line.split(":", 1)[0]. -/
def takeUntilColon (s : String) : String :=
  ⟨s.data.takeWhile (fun c => c != ':')⟩

/-- Python '":" in line' for the single colon character. -/
def hasColon (s : String) : Bool := s.data.contains ':'

/-- Python " | ".join(l). -/
def pipeJoin : List String → String
  | [] => ""
  | [u] => u
  | u :: v :: rest => u ++ " | " ++ pipeJoin (v :: rest)

/- Data model: topic rows and the process-wide settings consumed by the
generation loop (src/app.py lines 573-594). -/

/-- One row of the topic table: topic_input, primary_keyword,
secondary_keywords. -/
structure TopicRow where
  topic_input : String
  primary_keyword : String
  secondary_keywords : String
deriving DecidableEq

/-- The session-state values the generation loop reads besides the
topic row: brand and SEO text, the two raw link lists, and the two
integer link-count targets. -/
structure Settings where
  brand_guidelines : String
  seo_summary : String
  approved_internal_links : String
  approved_external_links : String
  target_internal_links : Nat
  target_external_links : Nat
deriving DecidableEq

/-- The nine placeholder tokens substituted by the generation loop, in
the order the source applies its replace chain (src/app.py 585-594). -/
def tokenList : List String :=
  ["[TOPIC_INPUT]", "[PRIMARY_KEYWORD]", "[SECONDARY_KEYWORDS_LIST]",
   "[WORKSTREAM_BRAND_GUIDELINES]", "[SEO_BEST_PRACTICES_SUMMARY]",
   "[APPROVED_INTERNAL_LINKS_TEXT]", "[APPROVED_EXTERNAL_LINKS_TEXT]",
   "[TARGET_NUMBER_INTERNAL_LINKS]", "[TARGET_NUMBER_EXTERNAL_LINKS]"]

/-- The template-resolution chain of src/app.py lines 585-594: nine
sequential Python str.replace calls in the fixed source order. -/
def fmt_prompt (template : String) (row : TopicRow) (s : Settings) : String :=
  let p := pyReplace template "[TOPIC_INPUT]" row.topic_input
  let p := pyReplace p "[PRIMARY_KEYWORD]" row.primary_keyword
  let p := pyReplace p "[SECONDARY_KEYWORDS_LIST]" row.secondary_keywords
  let p := pyReplace p "[WORKSTREAM_BRAND_GUIDELINES]" s.brand_guidelines
  let p := pyReplace p "[SEO_BEST_PRACTICES_SUMMARY]" s.seo_summary
  let p := pyReplace p "[APPROVED_INTERNAL_LINKS_TEXT]" s.approved_internal_links
  let p := pyReplace p "[APPROVED_EXTERNAL_LINKS_TEXT]" s.approved_external_links
  let p := pyReplace p "[TARGET_NUMBER_INTERNAL_LINKS]" (toString s.target_internal_links)
  pyReplace p "[TARGET_NUMBER_EXTERNAL_LINKS]" (toString s.target_external_links)

/- Link auditor (src/app.py lines 598-615). -/

/-- Guard of the extraction loop: the line is kept when its stripped
form is non-empty and the line contains a colon. -/
def keepLine (line : String) : Bool :=
  (pyStrip line != "") && hasColon line

/-- Value appended for a kept line: line.split(":", 1)[0].strip(). -/
def urlOf (line : String) : String := pyStrip (takeUntilColon line)

/-- The approved-URL extraction loop: for each line of the raw list
text, when the stripped line is non-empty and contains a colon, append
the stripped text before the first colon (source variables
approved_internal_urls_full and approved_external_urls_full). -/
def extract_approved_urls (raw : String) : List String :=
  (splitLines raw).filterMap (fun line =>
    if keepLine line then some (urlOf line) else none)

/-- The match list comprehension: URLs of the approved list that occur
as substrings of the generated body text, in list order. -/
def matched_urls (raw body : String) : List String :=
  (extract_approved_urls raw).filter (fun url => strIn url body)

/-- The pipe-joined derived field value, as stored in
found_internal_links_in_html and found_external_links_in_html. -/
def found_links_join (raw body : String) : String :=
  pipeJoin (matched_urls raw body)

/- Model backend and retry controller (generate_content,
src/app.py lines 160-288). The st.write / st.error calls are pure
logging and are not modelled. The outer try around vendor-SDK setup is
not modelled: its failure is a fault of the external SDK object
construction, not of the retry logic the claims are about. -/

/-- Outcome of one vendor API call: a successful response carrying
text, an empty or safety-blocked response carrying a reason, or a
raised exception carrying its detail string. -/
inductive Outcome where
  | success (text : String)
  | emptyBlocked (reason : String)
  | exc (detail : String)

/-- Instrumented result of generate_content: the returned string, the
number of vendor API calls performed, the backoff sleeps (in seconds,
in order), and whether the post-loop "ERROR: Max retries." return was
reached. -/
structure GenResult where
  result : String
  calls : Nat
  sleeps : List Nat
  fellThrough : Bool
deriving DecidableEq

/-- The per-provider retry loop body ("for attempt in range(retries)").
The first Nat argument is the number of attempts remaining
(retries - attempt); the second is the 0-indexed attempt number. On a
retryable failure with attempts remaining the loop sleeps
delay_seconds * (attempt + 1) and continues; on the final attempt it
returns the terminal error string; the base case is the post-loop
"ERROR: Max retries." return, reachable only with zero attempts
remaining. emptyMsg is the provider-specific terminal message for an
empty or blocked response. -/
def retryGo (emptyMsg : String → String) (outcomes : Nat → Outcome)
    (delay_seconds : Nat) : Nat → Nat → GenResult
  | 0, _ => { result := "ERROR: Max retries.", calls := 0, sleeps := [], fellThrough := true }
  | remaining + 1, i =>
    match outcomes i with
    | Outcome.success t =>
      { result := pyStrip t, calls := 1, sleeps := [], fellThrough := false }
    | Outcome.emptyBlocked reason =>
      if remaining = 0 then
        { result := emptyMsg reason, calls := 1, sleeps := [], fellThrough := false }
      else
        let rest := retryGo emptyMsg outcomes delay_seconds remaining (i + 1)
        { result := rest.result, calls := rest.calls + 1,
          sleeps := delay_seconds * (i + 1) :: rest.sleeps,
          fellThrough := rest.fellThrough }
    | Outcome.exc detail =>
      if remaining = 0 then
        { result := "ERROR: API call failed - " ++ detail, calls := 1, sleeps := [],
          fellThrough := false }
      else
        let rest := retryGo emptyMsg outcomes delay_seconds remaining (i + 1)
        { result := rest.result, calls := rest.calls + 1,
          sleeps := delay_seconds * (i + 1) :: rest.sleeps,
          fellThrough := rest.fellThrough }

/-- Entry into the retry loop at attempt 0 with the full budget. -/
def retryLoop (emptyMsg : String → String) (outcomes : Nat → Outcome)
    (retries delay_seconds : Nat) : GenResult :=
  retryGo emptyMsg outcomes delay_seconds retries 0

/-- Provider dispatch by substring inspection of the model name, in the
source order of the if/elif chain. -/
inductive Provider where
  | gemini
  | openai
  | anthropic
  | unsupported
deriving DecidableEq

/-- "gemini" in model_name, elif "gpt", elif "claude", else
unsupported. -/
def providerOf (model_name : String) : Provider :=
  if strIn "gemini" model_name then Provider.gemini
  else if strIn "gpt" model_name then Provider.openai
  else if strIn "claude" model_name then Provider.anthropic
  else Provider.unsupported

/-- The three provider credentials resolved at startup; a missing
environment value is none. -/
structure Keys where
  gemini : Option String
  openai : Option String
  anthropic : Option String
deriving DecidableEq

/-- Python truthiness of a credential: present and non-empty ("if not
GEMINI_API_KEY" treats None and the empty string alike). -/
def keyPresent : Option String → Bool
  | none => false
  | some s => s != ""

/-- Credential the selected provider branch consults. -/
def keyFor (keys : Keys) (model_name : String) : Option String :=
  match providerOf model_name with
  | Provider.gemini => keys.gemini
  | Provider.openai => keys.openai
  | Provider.anthropic => keys.anthropic
  | Provider.unsupported => none

/-- Result record of the credential short-circuit branch. -/
def missingKeyResult : GenResult :=
  { result := "ERROR: API Key missing.", calls := 0, sleeps := [], fellThrough := false }

/-- generate_content (src/app.py 160-288) as a function of the
credential set, the model name, the stream of vendor outcomes (the
outcome of attempt i), the retry budget (source default 3) and the base
delay in seconds (source default 5). Each provider branch first checks
its credential and returns "ERROR: API Key missing." without entering
the loop when it is absent; an unrecognised model name returns the
unsupported-provider terminal string. The prompt text and temperature
do not influence control flow and are abstracted into the outcome
stream. -/
def generate_content (keys : Keys) (model_name : String) (outcomes : Nat → Outcome)
    (retries delay_seconds : Nat) : GenResult :=
  match providerOf model_name with
  | Provider.gemini =>
    if keyPresent keys.gemini then
      retryLoop (fun reason => "ERROR: Blocked - " ++ reason) outcomes retries delay_seconds
    else missingKeyResult
  | Provider.openai =>
    if keyPresent keys.openai then
      retryLoop (fun _ => "ERROR: OpenAI response empty after retries.")
        outcomes retries delay_seconds
    else missingKeyResult
  | Provider.anthropic =>
    if keyPresent keys.anthropic then
      retryLoop (fun _ => "ERROR: Anthropic response empty/invalid after retries.")
        outcomes retries delay_seconds
    else missingKeyResult
  | Provider.unsupported =>
    { result := "ERROR: Unsupported model provider.", calls := 0, sleeps := [],
      fellThrough := false }

/- Batch orchestrator (src/app.py 553-619). The output record is the
Python dict output_row, modelled as an association list in insertion
order; every key the loop writes is written at most once, so appending
agrees with dict assignment. -/

/-- The six generated fields in the fixed processing order. -/
def fieldOrder : List String :=
  ["page_title", "meta_description", "h1_tag", "subtitle", "alt_text", "main_text_html"]

/-- Body of the inner field loop for one field: a missing or empty
template stores "ERROR: No Prompt" and skips the rest of the iteration;
otherwise the resolved prompt is generated (genFn abstracts
generate_content applied to the session model and temperature) and the
result is stored; for main_text_html the two derived link fields are
then computed from whatever string the generation produced, with no
success guard. -/
def processField (genFn : String → String) (prompts : String → Option String)
    (row : TopicRow) (s : Settings) (acc : List (String × String)) (field : String) :
    List (String × String) :=
  match prompts field with
  | none => acc ++ [(field, "ERROR: No Prompt")]
  | some t =>
    if t = "" then acc ++ [(field, "ERROR: No Prompt")]
    else
      let v := genFn (fmt_prompt t row s)
      if field = "main_text_html" then
        acc ++ [(field, v),
                ("found_internal_links_in_html", found_links_join s.approved_internal_links v),
                ("found_external_links_in_html", found_links_join s.approved_external_links v)]
      else acc ++ [(field, v)]

/-- One topic iteration: the record starts with the three topic columns
and then the six fields are processed in order. -/
def processTopic (genFn : String → String) (prompts : String → Option String)
    (s : Settings) (row : TopicRow) : List (String × String) :=
  fieldOrder.foldl (processField genFn prompts row s)
    [("topic_input", row.topic_input), ("primary_keyword", row.primary_keyword),
     ("secondary_keywords", row.secondary_keywords)]

/-- The batch run: an empty topic table is reported and aborts before
any generation (st.warning plus st.stop, modelled as none); otherwise
first_only mode keeps only row 0 and every kept row produces one output
record. -/
def runBatch (genFn : String → String) (prompts : String → Option String)
    (s : Settings) (topics : List TopicRow) (run_mode : String) :
    Option (List (List (String × String))) :=
  if topics.isEmpty then none
  else
    some ((if run_mode = "first_only" then topics.take 1 else topics).map
      (processTopic genFn prompts s))

/- Configuration store (get_current_config_dict and
load_config_from_dict, src/app.py 142-157). The temperature is a JSON
number copied verbatim by save and load; it is modelled as an exact
rational because the serialization round-trips the numeral exactly. -/

/-- The configuration snapshot: the nine scalar session keys plus the
prompt mapping and the topic table. -/
structure Config where
  model_name : String
  approved_internal_links : String
  approved_external_links : String
  brand_guidelines : String
  seo_summary : String
  target_internal_links : Nat
  target_external_links : Nat
  llm_temperature : Rat
  editable_prompts : List (String × String)
  topics_df : List TopicRow
deriving DecidableEq

/-- Tagged JSON-document values of the configuration dictionary. -/
inductive CVal where
  | s (v : String)
  | n (v : Nat)
  | q (v : Rat)
  | pm (v : List (String × String))
  | rows (v : List TopicRow)
deriving DecidableEq

/-- get_current_config_dict: the saved document, one entry per session
key in source order, plus topics_df_as_list built from the topic
table. -/
def get_current_config_dict (c : Config) : List (String × CVal) :=
  [("model_name", CVal.s c.model_name),
   ("approved_internal_links", CVal.s c.approved_internal_links),
   ("approved_external_links", CVal.s c.approved_external_links),
   ("brand_guidelines", CVal.s c.brand_guidelines),
   ("seo_summary", CVal.s c.seo_summary),
   ("target_internal_links", CVal.n c.target_internal_links),
   ("target_external_links", CVal.n c.target_external_links),
   ("llm_temperature", CVal.q c.llm_temperature),
   ("editable_prompts", CVal.pm c.editable_prompts),
   ("topics_df_as_list", CVal.rows c.topics_df)]

/-- One step of the load loop: a recognised key updates the matching
session field (topics_df_as_list rebuilds the topic table); any other
entry leaves the modelled configuration unchanged (session keys outside
the configuration schema are not part of the modelled state). -/
def applyConfigEntry (c : Config) (kv : String × CVal) : Config :=
  match kv with
  | (k, CVal.s v) =>
    if k = "model_name" then { c with model_name := v }
    else if k = "approved_internal_links" then { c with approved_internal_links := v }
    else if k = "approved_external_links" then { c with approved_external_links := v }
    else if k = "brand_guidelines" then { c with brand_guidelines := v }
    else if k = "seo_summary" then { c with seo_summary := v }
    else c
  | (k, CVal.n v) =>
    if k = "target_internal_links" then { c with target_internal_links := v }
    else if k = "target_external_links" then { c with target_external_links := v }
    else c
  | (k, CVal.q v) =>
    if k = "llm_temperature" then { c with llm_temperature := v } else c
  | (k, CVal.pm v) =>
    if k = "editable_prompts" then { c with editable_prompts := v } else c
  | (k, CVal.rows v) =>
    if k = "topics_df_as_list" then { c with topics_df := v } else c

/-- load_config_from_dict: fold the document entries over the current
configuration. -/
def load_config_from_dict (d : List (String × CVal)) (c : Config) : Config :=
  d.foldl applyConfigEntry c

/- Concrete inputs used by witnesses and counterexamples. -/

/-- Topic row whose topic_input value itself contains a later
placeholder token. -/
def rowNest : TopicRow :=
  { topic_input := "[PRIMARY_KEYWORD]", primary_keyword := "X", secondary_keywords := "" }

/-- Settings whose seo_summary value contains the first placeholder
token. -/
def sNest : Settings :=
  { brand_guidelines := "", seo_summary := "[TOPIC_INPUT]",
    approved_internal_links := "", approved_external_links := "",
    target_internal_links := 0, target_external_links := 0 }

/-- A backend stub that always yields a terminal API-failure marker. -/
def gW : String → String := fun _ => "ERROR: API call failed - boom"

/-- A prompt mapping giving every field the same tokenised template. -/
def pW : String → Option String := fun _ => some "[TOPIC_INPUT]"

/-- Concrete settings with one approved internal link line. -/
def sW : Settings :=
  { brand_guidelines := "bg", seo_summary := "seo",
    approved_internal_links := "https://a.com: A", approved_external_links := "",
    target_internal_links := 2, target_external_links := 1 }

/-- A concrete topic row. -/
def rW : TopicRow :=
  { topic_input := "hire baristas", primary_keyword := "hire",
    secondary_keywords := "x, y" }

/-- All three credentials present. -/
def keysAll : Keys := { gemini := some "g", openai := some "o", anthropic := some "a" }

/-- No credential present. -/
def keysNone : Keys := { gemini := none, openai := none, anthropic := none }

/-- Distinct failure details per attempt. -/
def boomD : Nat → String := fun i => "boom" ++ toString i

/- Helper lemmas. -/

/-- The empty pattern occurs in every string. -/
theorem hasSubstr_nil_pat : ∀ l : List Char, hasSubstr [] l = true
  | [] => rfl
  | _ :: _ => by simp [hasSubstr, startsWith]

/-- A replacement pass over a string with no occurrence of the pattern
is the identity, for any fuel. -/
theorem replaceAux_of_no_occ (pat rep : List Char) :
    ∀ (fuel : Nat) (s : List Char), hasSubstr pat s = false →
      replaceAux pat rep fuel s = s := by
  intro fuel
  induction fuel with
  | zero => intro s _; cases s <;> rfl
  | succ n ih =>
    intro s h
    cases s with
    | nil => rfl
    | cons c rest =>
      simp only [hasSubstr, Bool.or_eq_false_iff] at h
      simp [replaceAux, h.1, ih _ h.2]

/-- Python replace with a pattern that does not occur is the
identity. -/
theorem pyReplace_of_no_occ (s pat rep : String) (h : strIn pat s = false) :
    pyReplace s pat rep = s := by
  unfold strIn at h
  unfold pyReplace
  split
  · rfl
  · rw [replaceAux_of_no_occ _ _ _ _ h]

/-- A filterMap whose function is a guarded some is the filter followed
by the map. -/
theorem filterMap_guard_eq {α β : Type} (p : α → Bool) (f : α → β) :
    ∀ l : List α,
      l.filterMap (fun x => if p x then some (f x) else none) = (l.filter p).map f := by
  intro l
  induction l with
  | nil => rfl
  | cons a t ih =>
    cases h : p a <;> simp [List.filterMap_cons, List.filter_cons, h, ih]

/-- Multiplicity of an element in a filtered list of strings. -/
theorem count_filter_eq (p : String → Bool) (u : String) :
    ∀ l : List String, (l.filter p).count u = if p u then l.count u else 0 := by
  intro l
  induction l with
  | nil => simp
  | cons a t ih =>
    by_cases hau : a = u
    · subst hau
      cases h : p a <;> simp [List.filter_cons, h, List.count_cons, ih]
    · cases h : p a <;> simp [List.filter_cons, h, List.count_cons, hau, ih]

/- Claims. -/

/-- Claim C1: the code slip behind the claim, evaluated. For the
internal list with lines "https://a.com: A" and "https://b.com: B" and
a body containing https://a.com, the extraction splits each line at its
FIRST colon — the colon of the URL scheme — so the approved-URL list is
["https", "https"], and the reported internal matches are
"https | https" rather than the "https://a.com" the claim (and the
source comment "Extract the full URL part") expects. With an empty
external list no external match is reported. -/
theorem link_audit_scheme_truncation :
    extract_approved_urls "https://a.com: A\nhttps://b.com: B" = ["https", "https"] ∧
    found_links_join "https://a.com: A\nhttps://b.com: B" "see https://a.com for more" =
      "https | https" ∧
    found_links_join "" "see https://a.com for more" = "" :=
  ⟨rfl, rfl, rfl⟩

/-- Claim C2, counterexample: substitution is a sequential replace
chain, so a substituted value IS re-scanned by later passes, and the
resolved prompt can contain a token that is a key of the context. With
topic_input = "[PRIMARY_KEYWORD]" and primary_keyword = "X", resolving
"A [TOPIC_INPUT]" yields "A X": the substituted value was re-scanned
and nested substitution happened. With seo_summary = "[TOPIC_INPUT]",
resolving "[SEO_BEST_PRACTICES_SUMMARY]" yields "[TOPIC_INPUT]", an
occurrence of a context-key token in the resolved prompt. -/
theorem fmt_prompt_nested_substitution :
    fmt_prompt "A [TOPIC_INPUT]" rowNest sNest = "A X" ∧
    fmt_prompt "[SEO_BEST_PRACTICES_SUMMARY]" rowNest sNest = "[TOPIC_INPUT]" ∧
    strIn "[TOPIC_INPUT]" (fmt_prompt "[SEO_BEST_PRACTICES_SUMMARY]" rowNest sNest) = true :=
  ⟨rfl, rfl, rfl⟩

/-- Claim C2 (amended): tokens outside the fixed set pass through
verbatim — a template containing no occurrence of any of the nine
recognized tokens resolves to itself. (Substitution is sequential in
the fixed source order; a substituted value is re-scanned by the later
passes, so the stronger original clauses fail, see the
counterexample.) -/
theorem fmt_prompt_unknown_tokens_pass (template : String) (row : TopicRow) (s : Settings)
    (h : ∀ tok ∈ tokenList, strIn tok template = false) :
    fmt_prompt template row s = template := by
  have h1 := h "[TOPIC_INPUT]" (by simp [tokenList])
  have h2 := h "[PRIMARY_KEYWORD]" (by simp [tokenList])
  have h3 := h "[SECONDARY_KEYWORDS_LIST]" (by simp [tokenList])
  have h4 := h "[WORKSTREAM_BRAND_GUIDELINES]" (by simp [tokenList])
  have h5 := h "[SEO_BEST_PRACTICES_SUMMARY]" (by simp [tokenList])
  have h6 := h "[APPROVED_INTERNAL_LINKS_TEXT]" (by simp [tokenList])
  have h7 := h "[APPROVED_EXTERNAL_LINKS_TEXT]" (by simp [tokenList])
  have h8 := h "[TARGET_NUMBER_INTERNAL_LINKS]" (by simp [tokenList])
  have h9 := h "[TARGET_NUMBER_EXTERNAL_LINKS]" (by simp [tokenList])
  simp only [fmt_prompt]
  rw [pyReplace_of_no_occ _ _ _ h1, pyReplace_of_no_occ _ _ _ h2,
    pyReplace_of_no_occ _ _ _ h3, pyReplace_of_no_occ _ _ _ h4,
    pyReplace_of_no_occ _ _ _ h5, pyReplace_of_no_occ _ _ _ h6,
    pyReplace_of_no_occ _ _ _ h7, pyReplace_of_no_occ _ _ _ h8,
    pyReplace_of_no_occ _ _ _ h9]

/-- Claim C2, witness: resolving "Hello [UNKNOWN]" leaves it
unchanged. -/
theorem fmt_prompt_unknown_tokens_pass_witness :
    fmt_prompt "Hello [UNKNOWN]" rowNest sNest = "Hello [UNKNOWN]" :=
  fmt_prompt_unknown_tokens_pass "Hello [UNKNOWN]" rowNest sNest (by decide)

/-- Claim C3: the link auditor extracts, in line order, the stripped
text before the first colon of each non-blank colon-containing line;
the matched list is the extracted list filtered by the byte-for-byte
substring test against the body (hence a sublist: the approved order
and duplicates are preserved, with membership exactly for substring
hits and multiplicity preserved for matched URLs); the derived field
value is the pipe-join of the matched list. -/
theorem link_auditor_characterization (raw body : String) :
    extract_approved_urls raw = ((splitLines raw).filter keepLine).map urlOf ∧
    List.Sublist (matched_urls raw body) (extract_approved_urls raw) ∧
    (∀ u, u ∈ matched_urls raw body ↔ u ∈ extract_approved_urls raw ∧ strIn u body = true) ∧
    (∀ u, (matched_urls raw body).count u =
      if strIn u body then (extract_approved_urls raw).count u else 0) ∧
    found_links_join raw body = pipeJoin (matched_urls raw body) := by
  refine ⟨filterMap_guard_eq keepLine urlOf _, List.filter_sublist _, ?_, ?_, rfl⟩
  · intro u
    simp [matched_urls, List.mem_filter]
  · intro u
    exact count_filter_eq (fun url => strIn url body) u _

/-- Claim C7: a batch run returns no records exactly when the topic
table is empty; the empty table is reported (modelled none) before any
generation function is consulted, for every generation function,
prompt mapping and run mode. -/
theorem empty_topic_guard (genFn : String → String) (prompts : String → Option String)
    (s : Settings) (run_mode : String) (topics : List TopicRow) :
    runBatch genFn prompts s topics run_mode = none ↔ topics = [] := by
  cases topics with
  | nil => simp [runBatch]
  | cons a t => simp [runBatch]

/-- Claim C8: loading the saved configuration document restores every
field of the configuration — model name, link lists, brand and SEO
text, target link counts, temperature, prompt-template mapping and
topic table — whatever configuration was previously active. -/
theorem config_round_trip (c c0 : Config) :
    load_config_from_dict (get_current_config_dict c) c0 = c := by
  simp [load_config_from_dict, get_current_config_dict, applyConfigEntry]

/-- Closed form of the retry loop when every attempt raises an
exception: n + 1 attempts starting at 0-indexed attempt i make n + 1
vendor calls, sleep delay * (attempt number) after each non-final
attempt, and return the failure terminal string with the last failure
detail. -/
theorem retryGo_all_exc (em : String → String) (d : Nat → String) (delay : Nat) :
    ∀ (n i : Nat),
      retryGo em (fun j => Outcome.exc (d j)) delay (n + 1) i =
        { result := "ERROR: API call failed - " ++ d (i + n),
          calls := n + 1,
          sleeps := (List.range n).map (fun k => delay * (i + k + 1)),
          fellThrough := false } := by
  intro n
  induction n with
  | zero =>
    intro i
    simp [retryGo]
  | succ m ih =>
    intro i
    have hrec := ih (i + 1)
    have hne : ¬ (m + 1 = 0) := Nat.succ_ne_zero m
    simp only [retryGo] at hrec
    simp only [retryGo]
    rw [if_neg hne, hrec]
    have harg : i + 1 + m = i + (m + 1) := by omega
    rw [harg]
    have hsl : (List.range (m + 1)).map (fun k => delay * (i + k + 1)) =
        delay * (i + 1) :: (List.range m).map (fun k => delay * (i + 1 + k + 1)) := by
      rw [List.range_succ_eq_map, List.map_cons, List.map_map]
      refine congrArg₂ List.cons ?_ ?_
      · simp
      · refine List.map_congr_left fun k _ => ?_
        simp only [Function.comp, Nat.succ_eq_add_one]
        ring
    rw [hsl]

/-- The retry loop entered with at least one attempt remaining never
reaches the post-loop return, whatever the outcomes are. -/
theorem retryGo_no_fall (em : String → String) (o : Nat → Outcome) (delay : Nat) :
    ∀ (n i : Nat), (retryGo em o delay (n + 1) i).fellThrough = false := by
  intro n
  induction n with
  | zero =>
    intro i
    cases h : o i <;> simp [retryGo, h]
  | succ m ih =>
    intro i
    have hrec := ih (i + 1)
    simp only [retryGo] at hrec
    cases h : o i <;> simp [retryGo, h, hrec]

/-- Claim C4: when the credential is present, the provider is
recognised, and every vendor invocation raises, generate_content makes
exactly retries invocations, sleeps delay * a after each non-final
attempt a (1-indexed), and returns the terminal string
"ERROR: API call failed - " followed by the last failure detail. The
model is a total function, so no unhandled fault can escape. -/
theorem retry_exhaustion_all_failures (keys : Keys) (model_name : String) (d : Nat → String)
    (retries delay : Nat)
    (hprov : providerOf model_name ≠ Provider.unsupported)
    (hkey : keyPresent (keyFor keys model_name) = true)
    (hr : 1 ≤ retries) :
    (generate_content keys model_name (fun i => Outcome.exc (d i)) retries delay).result =
        "ERROR: API call failed - " ++ d (retries - 1) ∧
    (generate_content keys model_name (fun i => Outcome.exc (d i)) retries delay).calls =
        retries ∧
    (generate_content keys model_name (fun i => Outcome.exc (d i)) retries delay).sleeps =
        (List.range (retries - 1)).map (fun a => delay * (a + 1)) := by
  obtain ⟨n, rfl⟩ : ∃ n, retries = n + 1 := ⟨retries - 1, by omega⟩
  rcases hp : providerOf model_name with _ | _ | _ | _
  case unsupported => exact absurd hp hprov
  case gemini =>
    have hk : keyPresent keys.gemini = true := by
      unfold keyFor at hkey; rw [hp] at hkey; exact hkey
    simp [generate_content, hp, hk, retryLoop, retryGo_all_exc]
  case openai =>
    have hk : keyPresent keys.openai = true := by
      unfold keyFor at hkey; rw [hp] at hkey; exact hkey
    simp [generate_content, hp, hk, retryLoop, retryGo_all_exc]
  case anthropic =>
    have hk : keyPresent keys.anthropic = true := by
      unfold keyFor at hkey; rw [hp] at hkey; exact hkey
    simp [generate_content, hp, hk, retryLoop, retryGo_all_exc]

/-- Claim C4, witness: the Gemini branch with credential present and
three always-raising attempts at base delay 5. -/
theorem retry_exhaustion_witness :
    (generate_content keysAll "gemini-2.5-pro-exp-03-25"
        (fun i => Outcome.exc (boomD i)) 3 5).result =
      "ERROR: API call failed - " ++ boomD (3 - 1) ∧
    (generate_content keysAll "gemini-2.5-pro-exp-03-25"
        (fun i => Outcome.exc (boomD i)) 3 5).calls = 3 ∧
    (generate_content keysAll "gemini-2.5-pro-exp-03-25"
        (fun i => Outcome.exc (boomD i)) 3 5).sleeps =
      (List.range (3 - 1)).map (fun a => 5 * (a + 1)) :=
  retry_exhaustion_all_failures keysAll "gemini-2.5-pro-exp-03-25" boomD 3 5
    (by decide) (by decide) (by decide)

/-- Claim C6: when the credential for the recognised provider is
absent, generate_content returns the terminal string
"ERROR: API Key missing." having consumed no vendor outcome and slept
no backoff delay, for every retry budget: the credential check
short-circuits before the retry loop is entered. -/
theorem missing_key_short_circuit (keys : Keys) (model_name : String)
    (outcomes : Nat → Outcome) (retries delay : Nat)
    (hprov : providerOf model_name ≠ Provider.unsupported)
    (hkey : keyPresent (keyFor keys model_name) = false) :
    generate_content keys model_name outcomes retries delay =
      { result := "ERROR: API Key missing.", calls := 0, sleeps := [],
        fellThrough := false } := by
  rcases hp : providerOf model_name with _ | _ | _ | _
  case unsupported => exact absurd hp hprov
  case gemini =>
    have hk : keyPresent keys.gemini = false := by
      unfold keyFor at hkey; rw [hp] at hkey; exact hkey
    simp [generate_content, hp, hk, missingKeyResult]
  case openai =>
    have hk : keyPresent keys.openai = false := by
      unfold keyFor at hkey; rw [hp] at hkey; exact hkey
    simp [generate_content, hp, hk, missingKeyResult]
  case anthropic =>
    have hk : keyPresent keys.anthropic = false := by
      unfold keyFor at hkey; rw [hp] at hkey; exact hkey
    simp [generate_content, hp, hk, missingKeyResult]

/-- Claim C6, witness: the OpenAI branch with no credential and a large
retry budget short-circuits without consuming the always-successful
outcome stream. -/
theorem missing_key_witness :
    generate_content keysNone "gpt-4.1" (fun _ => Outcome.success "hello") 99 5 =
      { result := "ERROR: API Key missing.", calls := 0, sleeps := [],
        fellThrough := false } :=
  missing_key_short_circuit keysNone "gpt-4.1" (fun _ => Outcome.success "hello") 99 5
    (by decide) (by decide)

/-- Claim C10: with a retry budget of at least one, generate_content
never reaches the post-loop "ERROR: Max retries." return, for every
credential set, model name and outcome stream: each provider branch
returns on its final attempt. -/
theorem no_max_retries_fall (keys : Keys) (model_name : String) (outcomes : Nat → Outcome)
    (retries delay : Nat) (hr : 1 ≤ retries) :
    (generate_content keys model_name outcomes retries delay).fellThrough = false := by
  obtain ⟨n, rfl⟩ : ∃ n, retries = n + 1 := ⟨retries - 1, by omega⟩
  rcases hp : providerOf model_name with _ | _ | _ | _
  case unsupported => simp [generate_content, hp]
  case gemini =>
    cases hk : keyPresent keys.gemini <;>
      simp [generate_content, hp, hk, retryLoop, retryGo_no_fall, missingKeyResult]
  case openai =>
    cases hk : keyPresent keys.openai <;>
      simp [generate_content, hp, hk, retryLoop, retryGo_no_fall, missingKeyResult]
  case anthropic =>
    cases hk : keyPresent keys.anthropic <;>
      simp [generate_content, hp, hk, retryLoop, retryGo_no_fall, missingKeyResult]

/-- Claim C10, witness: the Anthropic branch, one attempt, blocked
outcome: the loop returns its terminal string rather than reaching the
post-loop return. -/
theorem no_max_retries_fall_witness :
    (generate_content keysAll "claude-3-7-sonnet-20250219"
        (fun _ => Outcome.emptyBlocked "safety") 1 5).fellThrough = false :=
  no_max_retries_fall keysAll "claude-3-7-sonnet-20250219"
    (fun _ => Outcome.emptyBlocked "safety") 1 5 (by decide)

/-- The field just processed always has its key in the record. -/
theorem keys_processField_self (g : String → String) (p : String → Option String)
    (r : TopicRow) (s : Settings) (acc : List (String × String)) (f : String) :
    f ∈ (processField g p r s acc f).map Prod.fst := by
  rcases hp : p f with _ | t
  · simp [processField, hp]
  · by_cases ht : t = ""
    · simp [processField, hp, ht]
    · by_cases hf : f = "main_text_html"
      · subst hf
        simp [processField, hp, ht]
      · simp [processField, hp, ht, hf]

/-- Processing a field never removes keys already present. -/
theorem keys_processField_mono (g : String → String) (p : String → Option String)
    (r : TopicRow) (s : Settings) (acc : List (String × String)) (f x : String)
    (hx : x ∈ acc.map Prod.fst) :
    x ∈ (processField g p r s acc f).map Prod.fst := by
  rcases hp : p f with _ | t
  · simp [processField, hp, hx]
  · by_cases ht : t = ""
    · simp [processField, hp, ht, hx]
    · by_cases hf : f = "main_text_html"
      · subst hf
        simp [processField, hp, ht, hx]
      · simp [processField, hp, ht, hf, hx]

/-- Folding the field loop never removes keys already present. -/
theorem keys_foldl_mono (g : String → String) (p : String → Option String)
    (r : TopicRow) (s : Settings) :
    ∀ (flds : List String) (acc : List (String × String)) (x : String),
      x ∈ acc.map Prod.fst →
      x ∈ ((flds.foldl (processField g p r s) acc).map Prod.fst) := by
  intro flds
  induction flds with
  | nil => intro acc x hx; simpa using hx
  | cons a t ih =>
    intro acc x hx
    rw [List.foldl_cons]
    exact ih _ x (keys_processField_mono g p r s acc a x hx)

/-- Every field of the processed field list ends up as a key of the
folded record. -/
theorem keys_foldl_mem (g : String → String) (p : String → Option String)
    (r : TopicRow) (s : Settings) :
    ∀ (flds : List String) (acc : List (String × String)) (f : String), f ∈ flds →
      f ∈ ((flds.foldl (processField g p r s) acc).map Prod.fst) := by
  intro flds
  induction flds with
  | nil => intro acc f hf; simp at hf
  | cons a t ih =>
    intro acc f hf
    rw [List.foldl_cons]
    rcases List.mem_cons.1 hf with rfl | hft
    · exact keys_foldl_mono g p r s t _ f (keys_processField_self g p r s acc f)
    · exact ih _ f hft

/-- An association list yields a value for every key it mentions. -/
theorem lookup_of_mem_keys :
    ∀ (l : List (String × String)) (a : String), a ∈ l.map Prod.fst →
      ∃ v, l.lookup a = some v := by
  intro l
  induction l with
  | nil => intro a ha; simp at ha
  | cons kv t ih =>
    intro a ha
    obtain ⟨k, v⟩ := kv
    by_cases hk : a = k
    · exact ⟨v, by simp [List.lookup, hk]⟩
    · have ha2 : a ∈ t.map Prod.fst := by simpa [hk] using ha
      obtain ⟨w, hw⟩ := ih a ha2
      have hbk : (a == k) = false := beq_eq_false_iff_ne.mpr hk
      exact ⟨w, by simp [List.lookup, hbk, hw]⟩

/-- Claim C5: a batch over a non-empty topic table in "all" mode yields
exactly one output record per topic row, and every record carries all
six generated fields (each holding whatever string — success text or
error marker — its processing stored); no field outcome can abort the
batch, the orchestrator being a total function of the generation
results. -/
theorem batch_completeness (g : String → String) (p : String → Option String)
    (s : Settings) (topics : List TopicRow) (h : topics ≠ []) :
    ∃ records, runBatch g p s topics "all" = some records ∧
      records.length = topics.length ∧
      ∀ r ∈ records, ∀ f ∈ fieldOrder, ∃ v, r.lookup f = some v := by
  have hne : topics.isEmpty = false := by
    cases topics with
    | nil => exact absurd rfl h
    | cons a t => rfl
  refine ⟨topics.map (processTopic g p s), ?_, by simp, ?_⟩
  · simp [runBatch, hne]
  · intro r hr f hf
    obtain ⟨row, _, rfl⟩ := List.mem_map.1 hr
    exact lookup_of_mem_keys _ f (keys_foldl_mem g p row s fieldOrder _ f hf)

/-- Claim C5, witness: a one-row batch with an error-producing backend
still yields one complete record. -/
theorem batch_completeness_witness :
    ∃ records, runBatch gW pW sW [rW] "all" = some records ∧
      records.length = [rW].length ∧
      ∀ r ∈ records, ∀ f ∈ fieldOrder, ∃ v, r.lookup f = some v :=
  batch_completeness gW pW sW [rW] (List.cons_ne_nil _ _)

/-- Claim C9: processing any field other than main_text_html adds only
that field key to the record (no derived link fields); processing
main_text_html with a present non-empty template stores the generated
string and then both derived link fields computed by auditing exactly
that string — whatever it is, success text or error marker, with no
guard distinguishing the two. -/
theorem audit_runs_exactly_for_main_text_html (g : String → String)
    (p : String → Option String) (r : TopicRow) (s : Settings)
    (acc : List (String × String)) (f : String) :
    (f ≠ "main_text_html" →
      (processField g p r s acc f).map Prod.fst = acc.map Prod.fst ++ [f]) ∧
    (∀ t, p f = some t → t ≠ "" → f = "main_text_html" →
      processField g p r s acc f =
        acc ++ [(f, g (fmt_prompt t r s)),
          ("found_internal_links_in_html",
            found_links_join s.approved_internal_links (g (fmt_prompt t r s))),
          ("found_external_links_in_html",
            found_links_join s.approved_external_links (g (fmt_prompt t r s)))]) := by
  constructor
  · intro hf
    rcases hp : p f with _ | t
    · simp [processField, hp]
    · by_cases ht : t = ""
      · simp [processField, hp, ht]
      · simp [processField, hp, ht, hf]
  · intro t hp ht hf
    subst hf
    simp [processField, hp, ht]

/-- Claim C9, witness: auditing runs on the terminal error marker the
stub backend produces for main_text_html. -/
theorem audit_runs_witness :
    processField gW pW rW sW [] "main_text_html" =
      [] ++ [("main_text_html", gW (fmt_prompt "[TOPIC_INPUT]" rW sW)),
        ("found_internal_links_in_html",
          found_links_join sW.approved_internal_links (gW (fmt_prompt "[TOPIC_INPUT]" rW sW))),
        ("found_external_links_in_html",
          found_links_join sW.approved_external_links (gW (fmt_prompt "[TOPIC_INPUT]" rW sW)))] :=
  (audit_runs_exactly_for_main_text_html gW pW rW sW [] "main_text_html").2
    "[TOPIC_INPUT]" rfl (by decide) rfl

end Bastian
